import Mathlib

/-!
Verification development for the `manofwar` static media server.

The Go sources embedded here:
* `internal/web/handler.go` — `NewMediaHandler`, the single HTTP handler;
* `cmd/server/main.go` — flag/environment configuration resolution.

Strings are modelled as Lean `String`s; the request paths, prefixes and
file contents exercised by the server are ASCII, for which Go's
byte-indexed string operations coincide with character-indexed ones.
The platform is Unix, so the path separator is `/`.
-/

namespace ManOfWar

/-- Go `strings.HasPrefix p s` at the character level (`true` iff `p`
begins with `pre`). -/
def strStartsWith (s pre : String) : Bool :=
  pre.data.isPrefixOf s.data

/-- Go `strings.TrimPrefix s pre`: drop `pre` from the front of `s` when it
is a prefix, otherwise return `s` unchanged. -/
def trimPref (s pre : String) : String :=
  if pre.data.isPrefixOf s.data then String.mk (s.data.drop pre.data.length) else s

/-- Split a character list on `/`, keeping empty segments
(Go `strings.Split s "/"` semantics). -/
def splitSlashAux : List Char → List Char → List String
  | acc, [] => [String.mk acc.reverse]
  | acc, c :: cs =>
    if c = '/' then String.mk acc.reverse :: splitSlashAux [] cs
    else splitSlashAux (c :: acc) cs

/-- Split a string into its `/`-separated segments. -/
def splitSlash (s : String) : List String :=
  splitSlashAux [] s.data

/-- Join segments back with `/` separators. -/
def joinSegs : List String → String
  | [] => ""
  | [x] => x
  | x :: xs => x ++ "/" ++ joinSegs xs

/-- Whether the path is rooted (begins with the separator), as in Go
`path[0] == '/'`. -/
def isRooted (s : String) : Bool :=
  match s.data with
  | [] => false
  | c :: _ => c = '/'

/-- The segment-processing loop of Go `path/filepath.Clean` (Unix):
drop empty and `.` segments; on `..` pop the previous real segment,
except that `..` at the root is discarded and leading `..` of a relative
path is kept.  `out` holds the emitted segments in reverse. -/
def cleanAux (rooted : Bool) : List String → List String → List String
  | out, [] => out.reverse
  | out, seg :: rest =>
    if seg = "" ∨ seg = "." then cleanAux rooted out rest
    else if seg = ".." then
      match out with
      | [] => if rooted then cleanAux rooted [] rest else cleanAux rooted [".."] rest
      | top :: prev =>
        if top = ".." then cleanAux rooted (".." :: top :: prev) rest
        else cleanAux rooted prev rest
    else cleanAux rooted (seg :: out) rest

/-- Go `path/filepath.Clean` on Unix: lexically simplify a path,
resolving `.` and `..` segments and collapsing repeated separators;
the empty path cleans to `"."`. -/
def clean (s : String) : String :=
  if s = "" then "."
  else
    let rooted := isRooted s
    let body := joinSegs (cleanAux rooted [] (splitSlash s))
    if rooted then "/" ++ body
    else if body = "" then "." else body

/-- Go `path/filepath.Join a b` on Unix: drop empty elements, join the
rest with `/`, and `Clean` the result; all-empty input gives `""`. -/
def filepathJoin (a b : String) : String :=
  if a = "" ∧ b = "" then ""
  else if a = "" then clean b
  else if b = "" then clean a
  else clean (a ++ "/" ++ b)

/-- Backward scan for `fileExt` over the reversed character list: walk
from the end of the path; stop without an extension at a separator,
return from the last `.` otherwise.  `acc` holds the suffix seen so far,
in forward order. -/
def extScan : List Char → List Char → Option String
  | _, [] => none
  | acc, c :: rest =>
    if c = '/' then none
    else if c = '.' then some (String.mk (c :: acc))
    else extScan (c :: acc) rest

/-- Go `path/filepath.Ext`: the suffix of the final path element starting
at its final dot, or `""` when the final element has no dot. -/
def fileExt (s : String) : String :=
  (extScan [] s.data.reverse).getD ""

example : trimPref "/media/a.txt" "/media/" = "a.txt" := by decide
example : trimPref "/other/a" "/media/" = "/other/a" := by decide
example : clean "/srv/media/../../etc/passwd" = "/etc/passwd" := by decide
example : clean "a//b/./c/.." = "a/b" := by decide
example : clean "" = "." := by decide
example : clean "/.." = "/" := by decide
example : clean "../../x" = "../../x" := by decide
example : filepathJoin "/srv/media" "a.txt" = "/srv/media/a.txt" := by decide
example : filepathJoin "/srv/media" "../../etc/passwd" = "/etc/passwd" := by decide
example : fileExt "a.tar.gz" = ".gz" := by decide
example : fileExt "noext" = "" := by decide
example : fileExt ".bashrc" = ".bashrc" := by decide
example : fileExt "dir.d/plain" = "" := by decide

/-- Why `os.Open` can fail: the path is missing, unreadable, or names a
directory where a file is expected. -/
inductive OpenError
  | notFound
  | permissionDenied
  | isDirectory
deriving DecidableEq, Repr

/-- An opened file: its contents and its modification time in whole
seconds (HTTP date resolution). -/
structure FileData where
  content : String
  modTime : Nat
deriving DecidableEq, Repr

/-- The filesystem as the handler observes it: each path either opens to
a file or fails with an `OpenError`. -/
def FileSystem : Type := String → Except OpenError FileData

/-- A parsed `Range: bytes=...` header with a single range:
`fromTo a b` is `bytes=a-b`, `fromStart a` is `bytes=a-`, and
`suffixLen n` is `bytes=-n`. -/
inductive ByteRange
  | fromTo (first last : Nat)
  | fromStart (first : Nat)
  | suffixLen (n : Nat)
deriving DecidableEq, Repr

/-- An incoming GET request: its URL path plus the two conditional
headers the delivery routine consults (`Range`, with `none` for absent
or unparsable, and `If-Modified-Since` as seconds, `none` when absent). -/
structure Request where
  path : String
  rangeHdr : Option ByteRange
  ifModifiedSince : Option Nat
deriving DecidableEq, Repr

/-- The observable response: status code, `Content-Type` and
`Content-Range` headers (when set), and the body bytes. -/
structure Response where
  status : Nat
  contentType : Option String
  contentRange : Option String
  body : String
deriving DecidableEq, Repr

/-- Go `http.NotFound`: status 404, the standard plain-text message, no
other content. -/
def notFoundResponse : Response :=
  ⟨404, some "text/plain; charset=utf-8", none, "404 page not found\n"⟩

/-- Modelled from the spec: the `Range`-handling half of the standard
content-serving routine (`http.ServeContent`), which the handler
delegates delivery to and whose source lies outside this repository.
Per the spec it honors single byte ranges, "responding 206 Partial
Content with `Content-Range` when a valid range is requested, 416 when
the range is unsatisfiable", and serves the whole file with 200
otherwise.  Offsets are character counts, which for the ASCII contents
considered equal Go's byte counts. -/
def rangeResponse (hdr : Option ByteRange) (content ctype : String) : Response :=
  let size := content.data.length
  let unsat : Response := ⟨416, some ctype, some ("bytes */" ++ toString size), ""⟩
  let mkPart : Nat → Nat → Response := fun a e =>
    ⟨206, some ctype,
      some ("bytes " ++ toString a ++ "-" ++ toString e ++ "/" ++ toString size),
      String.mk ((content.data.drop a).take (e - a + 1))⟩
  match hdr with
  | none => ⟨200, some ctype, none, content⟩
  | some (.fromTo a b) =>
    if a > b ∨ size ≤ a then unsat else mkPart a (min b (size - 1))
  | some (.fromStart a) =>
    if size ≤ a then unsat else mkPart a (size - 1)
  | some (.suffixLen n) =>
    if n = 0 ∨ size = 0 then unsat else mkPart (size - min n size) (size - 1)

/-- Modelled from the spec: the conditional half of `http.ServeContent`
(source outside this repository).  Per the spec it "honors
`If-Modified-Since`/conditional headers (responding 304 Not Modified
when appropriate)" — 304 with an empty body whenever the file's
modification time is not after the header's time — and otherwise falls
through to range handling.  The filename argument is carried but, the
`Content-Type` header being always set by the caller, unused. -/
def serveContent (r : Request) (_fname : String) (modtime : Nat)
    (content ctype : String) : Response :=
  match r.ifModifiedSince with
  | some ims =>
    if modtime ≤ ims then ⟨304, some ctype, none, ""⟩
    else rangeResponse r.rangeHdr content ctype
  | none => rangeResponse r.rangeHdr content ctype

/-- One invocation's observables: the resolved filesystem path the
handler logs and then attempts to open, and the HTTP response. -/
structure HandlerOutcome where
  loggedPath : String
  response : Response
deriving DecidableEq, Repr

/-- `web.NewMediaHandler` from `internal/web/handler.go`, applied to one
request: trim the `/media/` prefix from the URL path, join the remainder
onto `mediaDir`, log and open that path; on any open error answer
`http.NotFound`; otherwise resolve the MIME type from the filename's
extension (`typeByExtension` standing for the platform's
`mime.TypeByExtension` table, `""` for unknown), defaulting to
`application/octet-stream`, set it as `Content-Type`, and delegate to
the content-serving routine with the filename, modification time and
file contents. -/
def newMediaHandler (typeByExtension : String → String) (mediaDir : String)
    (fs : FileSystem) (r : Request) : HandlerOutcome :=
  let filename := trimPref r.path "/media/"
  let fpath := filepathJoin mediaDir filename
  match fs fpath with
  | .error _ => ⟨fpath, notFoundResponse⟩
  | .ok file =>
    let extension := fileExt filename
    let mimeType := typeByExtension extension
    let mimeType := if mimeType = "" then "application/octet-stream" else mimeType
    ⟨fpath, serveContent r filename file.modTime file.content mimeType⟩

/-- The resolved configuration `main` ends up with: the listening port
and the media directory. -/
structure Config where
  port : String
  mediaDir : String
deriving DecidableEq, Repr

/-- Configuration resolution from `cmd/server/main.go`: start from the
flag values (defaults `"8080"` and `"./media"`), then let
`SERVER_PORT` / `MEDIA_DIR` override when `os.Getenv` returns a
non-empty string.  `env` maps a variable name to `some` value when the
variable is present and `none` when unset; Go's `os.Getenv` flattens the
two via `getD ""`. -/
def resolveConfig (env : String → Option String) (flagPort flagMediaDir : String) :
    Config :=
  let port := if (env "SERVER_PORT").getD "" ≠ "" then (env "SERVER_PORT").getD ""
              else flagPort
  let mediaDir := if (env "MEDIA_DIR").getD "" ≠ "" then (env "MEDIA_DIR").getD ""
                  else flagMediaDir
  ⟨port, mediaDir⟩

/-- Default value of the `-port` flag. -/
def defaultPort : String := "8080"

/-- Default value of the `-mediadir` flag. -/
def defaultMediaDir : String := "./media"

/-- `q` lies at or beneath directory `root`: it equals `root` or extends
it past a separator. -/
def isDescendantOf (root q : String) : Bool :=
  q = root || (root ++ "/").data.isPrefixOf q.data

/-- The path contains a `..` segment. -/
def hasDotDotSeg (p : String) : Bool :=
  (splitSlash p).contains ".."

example : isDescendantOf "/srv/media" "/srv/media/a.txt" = true := by decide
example : isDescendantOf "/srv/media" "/etc/passwd" = false := by decide
example : isDescendantOf "/srv/media" "/srv/mediaX" = false := by decide
example : hasDotDotSeg "/media/../../etc/passwd" = true := by decide

/-- A small concrete MIME table: the platform maps `.txt` and nothing
else; unknown extensions give `""` as `mime.TypeByExtension` does. -/
def mimeTable0 : String → String :=
  fun e => if e = ".txt" then "text/plain; charset=utf-8" else ""

/-- A filesystem with no readable files. -/
def fsEmpty : FileSystem := fun _ => Except.error OpenError.notFound

/-- A filesystem denying permission everywhere. -/
def fsPerm : FileSystem := fun _ => Except.error OpenError.permissionDenied

/-- The 11-byte test file from the spec, modified at second 100. -/
def helloFile : FileData := ⟨"Hello World", 100⟩

/-- A filesystem holding exactly `hello.txt` under `/srv/media`. -/
def fsHello : FileSystem :=
  fun p => if p = "/srv/media/hello.txt" then Except.ok helloFile
           else Except.error OpenError.notFound

/-- Every response of the range half of the delivery routine carries the
`Content-Type` it was handed. -/
theorem rangeResponse_contentType (hdr : Option ByteRange) (c ct : String) :
    (rangeResponse hdr c ct).contentType = some ct := by
  unfold rangeResponse
  cases hdr with
  | none => rfl
  | some br => cases br <;> dsimp only <;> split <;> rfl

/-- Every response of the delivery routine carries the `Content-Type` it
was handed. -/
theorem serveContent_contentType (r : Request) (nm : String) (t : Nat)
    (c ct : String) : (serveContent r nm t c ct).contentType = some ct := by
  unfold serveContent
  cases r.ifModifiedSince with
  | none => exact rangeResponse_contentType r.rangeHdr c ct
  | some ims =>
    dsimp only
    split
    · rfl
    · exact rangeResponse_contentType r.rangeHdr c ct

/-- The range half of the delivery routine answers 200, 206 or 416. -/
theorem rangeResponse_status (hdr : Option ByteRange) (c ct : String) :
    (rangeResponse hdr c ct).status = 200 ∨ (rangeResponse hdr c ct).status = 206 ∨
      (rangeResponse hdr c ct).status = 416 := by
  unfold rangeResponse
  cases hdr with
  | none => exact Or.inl rfl
  | some br =>
    cases br <;> dsimp only <;> split
    · exact Or.inr (Or.inr rfl)
    · exact Or.inr (Or.inl rfl)
    · exact Or.inr (Or.inr rfl)
    · exact Or.inr (Or.inl rfl)
    · exact Or.inr (Or.inr rfl)
    · exact Or.inr (Or.inl rfl)

/-- The delivery routine answers 200, 206, 304 or 416. -/
theorem serveContent_status (r : Request) (nm : String) (t : Nat)
    (c ct : String) :
    (serveContent r nm t c ct).status = 200 ∨ (serveContent r nm t c ct).status = 206 ∨
      (serveContent r nm t c ct).status = 304 ∨ (serveContent r nm t c ct).status = 416 := by
  unfold serveContent
  cases r.ifModifiedSince with
  | none =>
    rcases rangeResponse_status r.rangeHdr c ct with h | h | h
    · exact Or.inl h
    · exact Or.inr (Or.inl h)
    · exact Or.inr (Or.inr (Or.inr h))
  | some ims =>
    dsimp only
    split
    · exact Or.inr (Or.inr (Or.inl rfl))
    · rcases rangeResponse_status r.rangeHdr c ct with h | h | h
      · exact Or.inl h
      · exact Or.inr (Or.inl h)
      · exact Or.inr (Or.inr (Or.inr h))

/-- The delivery routine never answers 404. -/
theorem serveContent_status_ne_404 (r : Request) (nm : String) (t : Nat)
    (c ct : String) : (serveContent r nm t c ct).status ≠ 404 := by
  rcases serveContent_status r nm t c ct with h | h | h | h <;> omega

/-- C1: for every request, the handler resolves the target path as
`Join(root, TrimPrefix(urlPath, "/media/"))` — that is the path it logs
and attempts to open — and the filesystem is consulted at that path
alone: two filesystems agreeing there produce identical outcomes. -/
theorem c1_resolved_target (table : String → String) (root : String)
    (fs fs' : FileSystem) (r : Request)
    (h : fs (filepathJoin root (trimPref r.path "/media/"))
      = fs' (filepathJoin root (trimPref r.path "/media/"))) :
    (newMediaHandler table root fs r).loggedPath
      = filepathJoin root (trimPref r.path "/media/") ∧
    newMediaHandler table root fs r = newMediaHandler table root fs' r := by
  constructor
  · dsimp only [newMediaHandler]
    cases fs (filepathJoin root (trimPref r.path "/media/")) <;> rfl
  · dsimp only [newMediaHandler]
    rw [h]

/-- C1 witness at a concrete request and filesystem. -/
theorem c1_witness :
    fsEmpty (filepathJoin "/srv/media" (trimPref "/media/a.txt" "/media/"))
      = fsEmpty (filepathJoin "/srv/media" (trimPref "/media/a.txt" "/media/")) ∧
    (newMediaHandler mimeTable0 "/srv/media" fsEmpty
        ⟨"/media/a.txt", none, none⟩).loggedPath
      = filepathJoin "/srv/media" (trimPref "/media/a.txt" "/media/") :=
  ⟨rfl,
   (c1_resolved_target mimeTable0 "/srv/media" fsEmpty fsEmpty
     ⟨"/media/a.txt", none, none⟩ rfl).1⟩

/-- C2: whenever opening the resolved path fails — for any of the three
causes: missing, permission denied, or is-a-directory — the response is
exactly `http.NotFound`: status 404 with the standard not-found message
as the whole body. -/
theorem c2_open_failure_404 (table : String → String) (root : String)
    (fs : FileSystem) (r : Request) (e : OpenError)
    (h : fs (filepathJoin root (trimPref r.path "/media/")) = Except.error e) :
    (newMediaHandler table root fs r).response = notFoundResponse ∧
    (newMediaHandler table root fs r).response.status = 404 ∧
    (newMediaHandler table root fs r).response.body = "404 page not found\n" := by
  dsimp only [newMediaHandler]
  rw [h]
  exact ⟨rfl, rfl, rfl⟩

/-- C2 witness: a permission-denied open yields the 404 response. -/
theorem c2_witness :
    fsPerm (filepathJoin "/srv/media" (trimPref "/media/secret" "/media/"))
        = Except.error OpenError.permissionDenied ∧
    (newMediaHandler mimeTable0 "/srv/media" fsPerm
        ⟨"/media/secret", none, none⟩).response = notFoundResponse :=
  ⟨rfl,
   (c2_open_failure_404 mimeTable0 "/srv/media" fsPerm
     ⟨"/media/secret", none, none⟩ OpenError.permissionDenied rfl).1⟩

/-- C3: a request path with `..` segments whose resolved target escapes
the root: the handler's join sends `/media/../../etc/passwd` under root
`/srv/media` to `/etc/passwd`, which is not a descendant of the root —
no containment check intervenes. -/
theorem c3_traversal_escape :
    ∃ p : String, hasDotDotSeg p = true ∧
      (newMediaHandler mimeTable0 "/srv/media" fsEmpty
          ⟨p, none, none⟩).loggedPath = "/etc/passwd" ∧
      isDescendantOf "/srv/media"
          ((newMediaHandler mimeTable0 "/srv/media" fsEmpty
              ⟨p, none, none⟩).loggedPath) = false := by
  refine ⟨"/media/../../etc/passwd", by decide, by decide, by decide⟩

/-- C4: for every successfully opened file the response's `Content-Type`
is the extension's entry in the platform MIME table, or
`application/octet-stream` when the table has none. -/
theorem c4_content_type (table : String → String) (root : String)
    (fs : FileSystem) (r : Request) (f : FileData)
    (h : fs (filepathJoin root (trimPref r.path "/media/")) = Except.ok f) :
    (newMediaHandler table root fs r).response.contentType
      = some (if table (fileExt (trimPref r.path "/media/")) = ""
              then "application/octet-stream"
              else table (fileExt (trimPref r.path "/media/"))) := by
  dsimp only [newMediaHandler]
  rw [h]
  exact serveContent_contentType r (trimPref r.path "/media/") f.modTime f.content _

/-- C4 witness: `hello.txt` resolves to the table's `text/plain` entry. -/
theorem c4_witness :
    fsHello (filepathJoin "/srv/media" (trimPref "/media/hello.txt" "/media/"))
        = Except.ok helloFile ∧
    (newMediaHandler mimeTable0 "/srv/media" fsHello
        ⟨"/media/hello.txt", none, none⟩).response.contentType
      = some "text/plain; charset=utf-8" := by
  refine ⟨rfl, ?_⟩
  have h := c4_content_type mimeTable0 "/srv/media" fsHello
    ⟨"/media/hello.txt", none, none⟩ helloFile rfl
  simpa using h

/-- C5: a GET with `Range: bytes=0-4` for the 11-byte file
`"Hello World"` answers 206 Partial Content with body `"Hello"` and
`Content-Range: bytes 0-4/11`. -/
theorem c5_range_request :
    (newMediaHandler mimeTable0 "/srv/media" fsHello
        ⟨"/media/hello.txt", some (ByteRange.fromTo 0 4), none⟩).response.status = 206 ∧
    (newMediaHandler mimeTable0 "/srv/media" fsHello
        ⟨"/media/hello.txt", some (ByteRange.fromTo 0 4), none⟩).response.body = "Hello" ∧
    (newMediaHandler mimeTable0 "/srv/media" fsHello
        ⟨"/media/hello.txt", some (ByteRange.fromTo 0 4), none⟩).response.contentRange
      = some "bytes 0-4/11" := by
  refine ⟨by decide, by decide, by decide⟩

/-- C6: a GET of an existing file whose `If-Modified-Since` equals the
file's modification time answers 304 Not Modified with an empty body. -/
theorem c6_not_modified (table : String → String) (root : String)
    (fs : FileSystem) (r : Request) (f : FileData)
    (hok : fs (filepathJoin root (trimPref r.path "/media/")) = Except.ok f)
    (hims : r.ifModifiedSince = some f.modTime) :
    (newMediaHandler table root fs r).response.status = 304 ∧
    (newMediaHandler table root fs r).response.body = "" := by
  dsimp only [newMediaHandler]
  rw [hok]
  dsimp only
  unfold serveContent
  rw [hims]
  dsimp only
  rw [if_pos (Nat.le_refl f.modTime)]
  exact ⟨rfl, rfl⟩

/-- C6 witness: re-fetching `hello.txt` with `If-Modified-Since` set to
its modification time (second 100) yields 304 with an empty body. -/
theorem c6_witness :
    fsHello (filepathJoin "/srv/media" (trimPref "/media/hello.txt" "/media/"))
        = Except.ok helloFile ∧
    (⟨"/media/hello.txt", none, some 100⟩ : Request).ifModifiedSince
        = some helloFile.modTime ∧
    ((newMediaHandler mimeTable0 "/srv/media" fsHello
        ⟨"/media/hello.txt", none, some 100⟩).response.status = 304 ∧
     (newMediaHandler mimeTable0 "/srv/media" fsHello
        ⟨"/media/hello.txt", none, some 100⟩).response.body = "") :=
  ⟨rfl, rfl,
   c6_not_modified mimeTable0 "/srv/media" fsHello
     ⟨"/media/hello.txt", none, some 100⟩ helloFile rfl rfl⟩

/-- C7 as stated is false: a conditional GET of an existing file answers
304 Not Modified — an outcome that is neither a 404 nor a (full or
partial) streaming of the file's bytes, so the handler has more than the
two claimed observable outcomes. -/
theorem c7_counterexample :
    (newMediaHandler mimeTable0 "/srv/media" fsHello
        ⟨"/media/hello.txt", none, some 100⟩).response.status = 304 ∧
    ¬((newMediaHandler mimeTable0 "/srv/media" fsHello
          ⟨"/media/hello.txt", none, some 100⟩).response.status = 404 ∨
      (newMediaHandler mimeTable0 "/srv/media" fsHello
          ⟨"/media/hello.txt", none, some 100⟩).response.status = 200 ∨
      (newMediaHandler mimeTable0 "/srv/media" fsHello
          ⟨"/media/hello.txt", none, some 100⟩).response.status = 206) := by
  refine ⟨by decide, by decide⟩

/-- C7 amended: every invocation is an independent transaction — the
handler is a pure function of the request and the filesystem — whose
outcome is either the 404 not-found response (open failed) or the
delivery routine's response for the opened file, with status 200, 206,
304 or 416. -/
theorem c7_outcomes (table : String → String) (root : String)
    (fs : FileSystem) (r : Request) :
    (∃ e, fs (filepathJoin root (trimPref r.path "/media/")) = Except.error e ∧
      (newMediaHandler table root fs r).response = notFoundResponse) ∨
    (∃ f, fs (filepathJoin root (trimPref r.path "/media/")) = Except.ok f ∧
      (newMediaHandler table root fs r).response
        = serveContent r (trimPref r.path "/media/") f.modTime f.content
            (if table (fileExt (trimPref r.path "/media/")) = ""
             then "application/octet-stream"
             else table (fileExt (trimPref r.path "/media/"))) ∧
      ((newMediaHandler table root fs r).response.status = 200 ∨
       (newMediaHandler table root fs r).response.status = 206 ∨
       (newMediaHandler table root fs r).response.status = 304 ∨
       (newMediaHandler table root fs r).response.status = 416)) := by
  cases h : fs (filepathJoin root (trimPref r.path "/media/")) with
  | error e =>
    left
    refine ⟨e, rfl, ?_⟩
    dsimp only [newMediaHandler]
    rw [h]
  | ok f =>
    right
    have hr : (newMediaHandler table root fs r).response
        = serveContent r (trimPref r.path "/media/") f.modTime f.content
            (if table (fileExt (trimPref r.path "/media/")) = ""
             then "application/octet-stream"
             else table (fileExt (trimPref r.path "/media/"))) := by
      dsimp only [newMediaHandler]
      rw [h]
    refine ⟨f, rfl, hr, ?_⟩
    rw [hr]
    exact serveContent_status r (trimPref r.path "/media/") f.modTime f.content _

/-- An environment where `SERVER_PORT` is present but empty. -/
def envEmptyPort : String → Option String :=
  fun k => if k = "SERVER_PORT" then some "" else none

/-- An environment where `SERVER_PORT` is present with value `"9999"`. -/
def envPort9999 : String → Option String :=
  fun k => if k = "SERVER_PORT" then some "9999" else none

/-- An environment where every variable is present but empty. -/
def envAllEmpty : String → Option String := fun _ => some ""

/-- C8 as stated is false: with `SERVER_PORT` present but holding the
empty string and the flag set to `"9090"`, the resolved port is the
flag's `"9090"`, not the environment's value — presence alone does not
give the environment precedence. -/
theorem c8_counterexample :
    envEmptyPort "SERVER_PORT" = some "" ∧
    (resolveConfig envEmptyPort "9090" "/srv/media").port = "9090" ∧
    ("9090" : String) ≠ "" := by
  refine ⟨by decide, by decide, by decide⟩

/-- C8 amended: a present and non-empty `SERVER_PORT` / `MEDIA_DIR`
value takes precedence over the flag; an unset or empty variable leaves
the flag (or default) value in effect. -/
theorem c8_env_precedence (env : String → Option String) (fp fm : String) :
    (∀ v, env "SERVER_PORT" = some v → v ≠ "" →
      (resolveConfig env fp fm).port = v) ∧
    ((env "SERVER_PORT" = none ∨ env "SERVER_PORT" = some "") →
      (resolveConfig env fp fm).port = fp) ∧
    (∀ v, env "MEDIA_DIR" = some v → v ≠ "" →
      (resolveConfig env fp fm).mediaDir = v) ∧
    ((env "MEDIA_DIR" = none ∨ env "MEDIA_DIR" = some "") →
      (resolveConfig env fp fm).mediaDir = fm) := by
  refine ⟨?_, ?_, ?_, ?_⟩
  · intro v hv hne
    simp [resolveConfig, hv, hne]
  · rintro (h | h) <;> simp [resolveConfig, h]
  · intro v hv hne
    simp [resolveConfig, hv, hne]
  · rintro (h | h) <;> simp [resolveConfig, h]

/-- C8 witness: a non-empty `SERVER_PORT` of `"9999"` overrides the flag
value `"8080"`. -/
theorem c8_witness :
    envPort9999 "SERVER_PORT" = some "9999" ∧ ("9999" : String) ≠ "" ∧
    (resolveConfig envPort9999 "8080" "./media").port = "9999" :=
  ⟨by decide, by decide,
   (c8_env_precedence envPort9999 "8080" "./media").1 "9999" (by decide)
     (by decide)⟩

/-- C9: for a URL path without the `/media/` prefix the trim is the
identity, the whole path is joined onto the root, and no path shape is
refused before the open attempt: the response is 404 exactly when the
open fails. -/
theorem c9_no_validation (table : String → String) (root : String)
    (fs : FileSystem) (r : Request)
    (h : strStartsWith r.path "/media/" = false) :
    trimPref r.path "/media/" = r.path ∧
    (newMediaHandler table root fs r).loggedPath = filepathJoin root r.path ∧
    ((newMediaHandler table root fs r).response.status = 404 ↔
      ∃ e, fs (filepathJoin root r.path) = Except.error e) := by
  rw [strStartsWith] at h
  have htrim : trimPref r.path "/media/" = r.path := by
    simp [trimPref, h]
  refine ⟨htrim, ?_, ?_⟩
  · dsimp only [newMediaHandler]
    rw [htrim]
    cases fs (filepathJoin root r.path) <;> rfl
  · constructor
    · intro h404
      cases hfs : fs (filepathJoin root r.path) with
      | error e => exact ⟨e, rfl⟩
      | ok f =>
        exfalso
        dsimp only [newMediaHandler] at h404
        rw [htrim, hfs] at h404
        exact serveContent_status_ne_404 r r.path f.modTime f.content _ h404
    · rintro ⟨e, hfs⟩
      dsimp only [newMediaHandler]
      rw [htrim, hfs]
      rfl

/-- C9 witness: the prefix-less path `/etc/passwd` passes through the
trim unchanged and is joined onto the root whole. -/
theorem c9_witness :
    strStartsWith "/etc/passwd" "/media/" = false ∧
    trimPref "/etc/passwd" "/media/" = "/etc/passwd" ∧
    (newMediaHandler mimeTable0 "/srv/media" fsEmpty
        ⟨"/etc/passwd", none, none⟩).loggedPath
      = filepathJoin "/srv/media" "/etc/passwd" :=
  ⟨by decide,
   (c9_no_validation mimeTable0 "/srv/media" fsEmpty
     ⟨"/etc/passwd", none, none⟩ (by decide)).1,
   (c9_no_validation mimeTable0 "/srv/media" fsEmpty
     ⟨"/etc/passwd", none, none⟩ (by decide)).2.1⟩

/-- C10: an environment variable set to the empty string does not
override the flag: with `SERVER_PORT` and `MEDIA_DIR` both present but
empty, the resolved configuration keeps the flag values. -/
theorem c10_empty_env (env : String → Option String) (fp fm : String)
    (hp : env "SERVER_PORT" = some "") (hm : env "MEDIA_DIR" = some "") :
    (resolveConfig env fp fm).port = fp ∧
    (resolveConfig env fp fm).mediaDir = fm := by
  constructor <;> simp [resolveConfig, hp, hm]

/-- C10 witness: empty overrides leave the flag defaults in effect. -/
theorem c10_witness :
    envAllEmpty "SERVER_PORT" = some "" ∧ envAllEmpty "MEDIA_DIR" = some "" ∧
    ((resolveConfig envAllEmpty defaultPort defaultMediaDir).port = defaultPort ∧
     (resolveConfig envAllEmpty defaultPort defaultMediaDir).mediaDir
        = defaultMediaDir) :=
  ⟨rfl, rfl, c10_empty_env envAllEmpty defaultPort defaultMediaDir rfl rfl⟩

end ManOfWar
